import Mathlib

/-!
Verification of the Simplified AI Journal API (FastAPI backend).

Shallow embedding of the request/response core:
  * `models.py`   — `EntryStatus`, `User`, `JournalEntry` (the columns the
    single write path touches).
  * `auth.py`     — `get_current_user`.
  * `database.py` — `get_session` (scoped session provider).
  * `main.py`     — `EntryCreateRequest`, `SimplifiedAnalysis`, and the
    endpoint `analyze_and_save_entry`.

External effects are explicit parameters:
  * the LLM call plus output-parsing step is an oracle
    `llm : Except String SimplifiedAnalysis` (`.error e` = the `llm.invoke`
    or `parser.parse` call raised, carrying the cause `e`);
  * the `session.commit()` outcome is `persist : Except String Unit`;
  * `date.today()` is a parameter `today : Date`.

The database is a value: a list of user rows, a list of committed journal
entries, and the autoincrement counter for `journal_entry_id`.  A live ORM
session carries the committed database plus the pending (added, not yet
committed) rows; `session.add` appends to pending, `session.commit` assigns
primary keys and moves pending into the database, `session.rollback`
discards pending.
-/

/-- `models.EntryStatus`: enumeration for the state of a journal entry. -/
inductive EntryStatus where
  | draft
  | published
  | archived
deriving DecidableEq, Repr

/-- `models.User`: the columns of the user row that the endpoint reads.
(The remaining columns — password hash, role, preferences, timestamps — are
never read or written by the single endpoint and are omitted.) -/
structure User where
  user_id : Int
  name : String
  email : String
deriving DecidableEq, Repr

/-- The calendar date produced by `date.today()`. -/
structure Date where
  year : Int
  month : Nat
  day : Nat
deriving DecidableEq, Repr

/-- An opaque JSON-like blob (`Dict[str, Any]`), modelled as key/value pairs;
the single write path only ever produces string values. -/
abbrev Blob := List (String × String)

/-- `models.JournalEntry`: the columns the write path of
`analyze_and_save_entry` sets, plus the autoincrement primary key
(`journal_entry_id = None` until the row is committed). -/
structure JournalEntry where
  journal_entry_id : Option Int
  user_id : Int
  entry_date : Date
  text : Option String
  sentiment_score : Option Int
  ai_suggestion : Option Blob
  chat_log : Option Blob
  entry_status : Option EntryStatus
  word_count : Nat
deriving DecidableEq, Repr

/-- The committed database: user rows, journal-entry rows, and the
autoincrement counter backing `journal_entry.journal_entry_id`. -/
structure Database where
  users : List User
  entries : List JournalEntry
  nextEntryId : Int
deriving DecidableEq, Repr

/-- A live ORM session: the committed database plus rows added but not yet
committed. -/
structure DBSession where
  db : Database
  pending : List JournalEntry
deriving DecidableEq, Repr

/-- `session.add(row)`: stage a row in the session. -/
def sessionAdd (s : DBSession) (e : JournalEntry) : DBSession :=
  { s with pending := s.pending ++ [e] }

/-- Assign consecutive autoincrement primary keys to freshly inserted rows. -/
def assignIds (nextId : Int) : List JournalEntry → List JournalEntry
  | [] => []
  | e :: rest => { e with journal_entry_id := some nextId } :: assignIds (nextId + 1) rest

/-- `session.commit()` on the success path: every pending row receives the
next autoincrement key and becomes a committed row. -/
def sessionCommit (s : DBSession) : DBSession :=
  { db := { s.db with
      entries := s.db.entries ++ assignIds s.db.nextEntryId s.pending
      nextEntryId := s.db.nextEntryId + s.pending.length }
    pending := [] }

/-- `session.rollback()`: discard all pending rows; the committed database
is untouched. -/
def sessionRollback (s : DBSession) : DBSession :=
  { s with pending := [] }

/-- The HTTP error taxonomy raised by the endpoint (`HTTPException`s of
`main.py` / `auth.py`), each carrying its human-readable `detail` string. -/
inductive ApiError where
  | badRequest (detail : String)
  | unauthenticated (detail : String)
  | notFound (detail : String)
  | upstreamFailure (detail : String)
  | persistenceFailure (detail : String)
deriving DecidableEq, Repr

/-- The HTTP status code each error is raised with. -/
def ApiError.statusCode : ApiError → Nat
  | .badRequest _ => 400
  | .unauthenticated _ => 401
  | .notFound _ => 404
  | .upstreamFailure _ => 500
  | .persistenceFailure _ => 500

/-- `main.SimplifiedAnalysis`: the structured output parsed from the model
(an integer sentiment score and a counsel string). -/
structure SimplifiedAnalysis where
  sentimentScore : Int
  counsel : String
deriving DecidableEq, Repr

/-- `main.EntryCreateRequest`: the request body; `entry_status` defaults to
`PUBLISHED`. -/
structure EntryCreateRequest where
  text : String
  entry_status : EntryStatus := .published
deriving DecidableEq, Repr

/-- Pydantic validation of the optional `entry_status` JSON field of the
request body: an omitted field takes the declared default
`EntryStatus.PUBLISHED`; a present field must be one of the `str`-enum
values `"draft"`, `"published"`, `"archived"`. -/
def parse_entry_status (s : Option String) : Option EntryStatus :=
  match s with
  | none => some .published
  | some v =>
      if v = "draft" then some .draft
      else if v = "published" then some .published
      else if v = "archived" then some .archived
      else none

/-- Python's `c` being whitespace for `str.split()` (ASCII whitespace). -/
def pyIsSpace (c : Char) : Bool :=
  c == ' ' || c == '\t' || c == '\n' || c == '\r' || c == '\x0b' || c == '\x0c'

/-- Helper for `wordCount`: count maximal runs of non-whitespace characters.
`inWord` records whether the previous character was part of a word. -/
def countWordsAux : List Char → Bool → Nat
  | [], _ => 0
  | c :: rest, inWord =>
    if pyIsSpace c then countWordsAux rest false
    else (if inWord then 0 else 1) + countWordsAux rest true

/-- `len(text.split())`: the number of whitespace-separated tokens of
`text` (`str.split()` with no argument splits on runs of whitespace and
discards empty tokens). -/
def wordCount (text : String) : Nat :=
  countWordsAux text.toList false

/-- `auth.get_current_user`: resolve the `X-User-Id` header against the user
table.  Returns the resolved user or the raised `HTTPException`, paired with
the number of primary-key lookups (`session.get`) performed. -/
def get_current_user (x_user_id : Option Int) (session : DBSession) :
    Except ApiError User × Nat :=
  match x_user_id with
  | none =>
      (.error (.unauthenticated "User ID must be provided in the 'X-User-Id' header."), 0)
  | some uid =>
      match session.db.users.find? (fun u => u.user_id == uid) with
      | none => (.error (.notFound ("User with ID " ++ toString uid ++ " not found.")), 1)
      | some user => (.ok user, 1)

/-- The `JournalEntry(...)` row constructed by `analyze_and_save_entry` for
request `entry_data`, user `current_user`, date `today` and parsed analysis
`analysis_result` (primary key still unassigned; `chat_log` left at its
column default). -/
def builtEntry (entry_data : EntryCreateRequest) (current_user : User) (today : Date)
    (analysis_result : SimplifiedAnalysis) : JournalEntry :=
  { journal_entry_id := none
    user_id := current_user.user_id
    entry_date := today
    text := some entry_data.text
    sentiment_score := some analysis_result.sentimentScore
    entry_status := some entry_data.entry_status
    word_count := wordCount entry_data.text
    ai_suggestion := some [("counsel", analysis_result.counsel)]
    chat_log := none }

/-- `main.analyze_and_save_entry` after dependency resolution: the endpoint
body, given the request, the authenticated user, today's date, the LLM
oracle, the commit outcome, and the request-scoped session.  Returns the
response (`.ok` = HTTP 200 with the analysis, `.error` = the raised
`HTTPException`), the session after the call, and the number of times the
LLM was invoked. -/
def analyze_and_save_entry (entry_data : EntryCreateRequest) (current_user : User)
    (today : Date) (llm : Except String SimplifiedAnalysis)
    (persist : Except String Unit) (session : DBSession) :
    Except ApiError SimplifiedAnalysis × DBSession × Nat :=
  if entry_data.text = "" then
    (.error (.badRequest "Entry text cannot be empty."), session, 0)
  else
    match llm with
    | .error e =>
        (.error (.upstreamFailure ("Failed to get a structured response from the AI: " ++ e)),
         session, 1)
    | .ok analysis_result =>
        let db_journal_entry := builtEntry entry_data current_user today analysis_result
        let session1 := sessionAdd session db_journal_entry
        match persist with
        | .error db_e =>
            (.error (.persistenceFailure ("Failed to save the entry to the database: " ++ db_e)),
             sessionRollback session1, 1)
        | .ok _ =>
            (.ok analysis_result, sessionCommit session1, 1)

/-- The full request cycle of `POST /analyze-entry`: resolve the session and
the current user, then run the endpoint body.  Returns the response, the
committed database after the request, and the number of LLM invocations. -/
def handle_analyze_entry (x_user_id : Option Int) (entry_data : EntryCreateRequest)
    (today : Date) (llm : Except String SimplifiedAnalysis)
    (persist : Except String Unit) (db : Database) :
    Except ApiError SimplifiedAnalysis × Database × Nat :=
  let session : DBSession := ⟨db, []⟩
  match (get_current_user x_user_id session).1 with
  | .error e => (.error e, session.db, 0)
  | .ok user =>
      let out := analyze_and_save_entry entry_data user today llm persist session
      (out.1, out.2.1.db, out.2.2)

/-- Lifecycle of the session handed out by `database.get_session`. -/
inductive SessionState where
  | opened
  | closed
deriving DecidableEq, Repr

/-- `database.get_session`: the `with Session(engine) as session` scope.  A
fresh session (the given database, nothing pending) is handed to the request
body; whether the body returns normally (`.ok`) or raises (`.error`), the
scope closes the session on exit. -/
def get_session_run (db : Database)
    (body : DBSession → Except ApiError SimplifiedAnalysis × DBSession × Nat) :
    (Except ApiError SimplifiedAnalysis × DBSession × Nat) × SessionState :=
  let fresh : DBSession := ⟨db, []⟩
  match body fresh with
  | (Except.error e, s, n) => ((Except.error e, s, n), SessionState.closed)
  | (Except.ok r, s, n) => ((Except.ok r, s, n), SessionState.closed)

/-- C4: submitting empty text (`text = ""`) always yields the BadRequest
error (HTTP 400), raised before the LLM is invoked (zero LLM calls), and
creates zero JournalEntry rows (the session — committed rows and pending
rows alike — is unchanged). -/
theorem empty_text_rejected (st : EntryStatus) (user : User) (today : Date)
    (llm : Except String SimplifiedAnalysis) (persist : Except String Unit)
    (session : DBSession) :
    (analyze_and_save_entry ⟨"", st⟩ user today llm persist session).1 =
        .error (.badRequest "Entry text cannot be empty.") ∧
    (ApiError.badRequest "Entry text cannot be empty.").statusCode = 400 ∧
    (analyze_and_save_entry ⟨"", st⟩ user today llm persist session).2.1 = session ∧
    (analyze_and_save_entry ⟨"", st⟩ user today llm persist session).2.2 = 0 := by
  refine ⟨?_, rfl, ?_, ?_⟩ <;> simp [analyze_and_save_entry]

/-- C3: if the LLM call or output parsing fails, the endpoint surfaces a
single UpstreamAnalysisFailure (HTTP 500) carrying the underlying cause,
the LLM is invoked exactly once (no retry), and the session is unchanged
(zero rows created). -/
theorem upstream_failure_no_rows (entry_data : EntryCreateRequest) (user : User)
    (today : Date) (e : String) (persist : Except String Unit) (session : DBSession)
    (hne : entry_data.text ≠ "") :
    (analyze_and_save_entry entry_data user today (.error e) persist session).1 =
        .error (.upstreamFailure ("Failed to get a structured response from the AI: " ++ e)) ∧
    (ApiError.upstreamFailure ("Failed to get a structured response from the AI: " ++ e)).statusCode
        = 500 ∧
    (analyze_and_save_entry entry_data user today (.error e) persist session).2.1 = session ∧
    (analyze_and_save_entry entry_data user today (.error e) persist session).2.2 = 1 := by
  refine ⟨?_, rfl, ?_, ?_⟩ <;> simp [analyze_and_save_entry, hne]

/-- Closed witness for `upstream_failure_no_rows`. -/
theorem upstream_failure_no_rows_witness :
    (analyze_and_save_entry ⟨"hello", .published⟩ ⟨7, "Alice", "alice@example.com"⟩
        ⟨2024, 5, 1⟩ (.error "boom") (.ok ()) ⟨⟨[], [], 1⟩, []⟩).2.1 = ⟨⟨[], [], 1⟩, []⟩ :=
  (upstream_failure_no_rows ⟨"hello", .published⟩ ⟨7, "Alice", "alice@example.com"⟩
      ⟨2024, 5, 1⟩ "boom" (.ok ()) ⟨⟨[], [], 1⟩, []⟩ (by decide)).2.2.1

/-- C9: the session provider hands a fresh session (the current database,
nothing pending) to the request body and closes it on every exit path —
whether the body returns normally or raises an error. -/
theorem session_closed_on_all_paths (db : Database)
    (body : DBSession → Except ApiError SimplifiedAnalysis × DBSession × Nat) :
    (get_session_run db body).2 = SessionState.closed := by
  unfold get_session_run
  rcases h : body ⟨db, []⟩ with ⟨r, s, n⟩
  cases r <;> simp [h]

/-- C8: the `entry_status` request field is optional and defaults to
PUBLISHED when omitted; a supplied value is accepted exactly when it is one
of the enum values draft / published / archived, and every value of the
`EntryStatus` type is one of those three. -/
theorem entry_status_default_and_values :
    parse_entry_status none = some .published ∧
    (∀ s : String, (parse_entry_status (some s)).isSome = true ↔
        s = "draft" ∨ s = "published" ∨ s = "archived") ∧
    (∀ st : EntryStatus, st = .draft ∨ st = .published ∨ st = .archived) ∧
    (∀ t : String, ({ text := t } : EntryCreateRequest).entry_status = .published) := by
  refine ⟨rfl, ?_, ?_, fun t => rfl⟩
  · intro s
    simp only [parse_entry_status]
    split_ifs with h1 h2 h3 <;> simp_all
  · intro st
    cases st <;> simp

/-- C1: for non-empty text, a successful call inserts exactly one new
JournalEntry row owned by the authenticated user with `word_count` equal to
the number of whitespace-separated tokens of the text; existing rows (and
the user table) are untouched, and a repeated identical call creates a
second row with a distinct primary key. -/
theorem entry_handler_inserts_exactly_one_row (entry_data : EntryCreateRequest)
    (user : User) (today : Date) (a : SimplifiedAnalysis) (db : Database)
    (hne : entry_data.text ≠ "") :
    (analyze_and_save_entry entry_data user today (.ok a) (.ok ()) ⟨db, []⟩).1 = .ok a ∧
    (analyze_and_save_entry entry_data user today (.ok a) (.ok ()) ⟨db, []⟩).2.1.db.entries =
      db.entries ++
        [{ builtEntry entry_data user today a with journal_entry_id := some db.nextEntryId }] ∧
    (builtEntry entry_data user today a).user_id = user.user_id ∧
    (builtEntry entry_data user today a).word_count = wordCount entry_data.text ∧
    (analyze_and_save_entry entry_data user today (.ok a) (.ok ()) ⟨db, []⟩).2.1.db.users =
      db.users ∧
    (analyze_and_save_entry entry_data user today (.ok a) (.ok ())
        ⟨(analyze_and_save_entry entry_data user today (.ok a) (.ok ()) ⟨db, []⟩).2.1.db,
         []⟩).2.1.db.entries =
      db.entries ++
        [{ builtEntry entry_data user today a with journal_entry_id := some db.nextEntryId },
         { builtEntry entry_data user today a with
             journal_entry_id := some (db.nextEntryId + 1) }] ∧
    (some db.nextEntryId : Option Int) ≠ some (db.nextEntryId + 1) := by
  refine ⟨?_, ?_, rfl, rfl, ?_, ?_, ?_⟩ <;>
    simp [analyze_and_save_entry, sessionAdd, sessionCommit, assignIds, hne]

/-- Closed witness for `entry_handler_inserts_exactly_one_row`. -/
theorem entry_handler_inserts_exactly_one_row_witness :
    (analyze_and_save_entry ⟨"hello world", .draft⟩ ⟨3, "Bob", "bob@example.com"⟩
        ⟨2024, 6, 2⟩ (.ok ⟨-2, "rest"⟩) (.ok ()) ⟨⟨[], [], 1⟩, []⟩).2.1.db.entries =
      [] ++ [{ builtEntry ⟨"hello world", .draft⟩ ⟨3, "Bob", "bob@example.com"⟩
                 ⟨2024, 6, 2⟩ ⟨-2, "rest"⟩ with journal_entry_id := some 1 }] :=
  (entry_handler_inserts_exactly_one_row ⟨"hello world", .draft⟩
      ⟨3, "Bob", "bob@example.com"⟩ ⟨2024, 6, 2⟩ ⟨-2, "rest"⟩ ⟨[], [], 1⟩ (by decide)).2.1

/-- C2: if the commit fails after a successful analysis, the transaction is
rolled back before the error is raised — the resulting session is exactly
`rollback (add session row)`, so nothing is pending and the committed
database is unchanged — a single PersistenceFailure (HTTP 500) carrying the
underlying cause is surfaced, and no analysis result is returned. -/
theorem persistence_failure_rolled_back (entry_data : EntryCreateRequest) (user : User)
    (today : Date) (a : SimplifiedAnalysis) (e : String) (db : Database)
    (hne : entry_data.text ≠ "") :
    (analyze_and_save_entry entry_data user today (.ok a) (.error e) ⟨db, []⟩).1 =
        .error (.persistenceFailure ("Failed to save the entry to the database: " ++ e)) ∧
    (ApiError.persistenceFailure ("Failed to save the entry to the database: " ++ e)).statusCode
        = 500 ∧
    (analyze_and_save_entry entry_data user today (.ok a) (.error e) ⟨db, []⟩).2.1 =
      sessionRollback (sessionAdd ⟨db, []⟩ (builtEntry entry_data user today a)) ∧
    (analyze_and_save_entry entry_data user today (.ok a) (.error e) ⟨db, []⟩).2.1.db = db ∧
    (analyze_and_save_entry entry_data user today (.ok a) (.error e) ⟨db, []⟩).2.1.pending
        = [] ∧
    ∀ r : SimplifiedAnalysis,
      (analyze_and_save_entry entry_data user today (.ok a) (.error e) ⟨db, []⟩).1 ≠ .ok r := by
  refine ⟨?_, rfl, ?_, ?_, ?_, ?_⟩ <;>
    simp [analyze_and_save_entry, sessionAdd, sessionRollback, hne]

/-- Closed witness for `persistence_failure_rolled_back`. -/
theorem persistence_failure_rolled_back_witness :
    (analyze_and_save_entry ⟨"hello", .published⟩ ⟨7, "Alice", "alice@example.com"⟩
        ⟨2024, 5, 1⟩ (.ok ⟨4, "nice"⟩) (.error "disk full") ⟨⟨[], [], 1⟩, []⟩).2.1.db =
      ⟨[], [], 1⟩ :=
  (persistence_failure_rolled_back ⟨"hello", .published⟩ ⟨7, "Alice", "alice@example.com"⟩
      ⟨2024, 5, 1⟩ ⟨4, "nice"⟩ "disk full" ⟨[], [], 1⟩ (by decide)).2.2.2.1

/-- C5: the authenticator fails with Unauthenticated (HTTP 401) when the
identity is missing, performing zero lookups; with an identity that matches
no user row it fails with NotFound (HTTP 404) and the full request leaves
the database unchanged (zero rows created); with a matching row it returns
that user.  It performs no writes in any case (it is a pure read returning
no modified state). -/
theorem authenticator_spec (db : Database) (uid : Int) (u : User) :
    (get_current_user none ⟨db, []⟩ =
        (.error (.unauthenticated "User ID must be provided in the 'X-User-Id' header."), 0)) ∧
    (ApiError.unauthenticated "User ID must be provided in the 'X-User-Id' header.").statusCode
        = 401 ∧
    (db.users.find? (fun v => v.user_id == uid) = none →
        get_current_user (some uid) ⟨db, []⟩ =
          (.error (.notFound ("User with ID " ++ toString uid ++ " not found.")), 1) ∧
        ∀ (entry_data : EntryCreateRequest) (today : Date)
          (llm : Except String SimplifiedAnalysis) (persist : Except String Unit),
            (handle_analyze_entry (some uid) entry_data today llm persist db).2.1 = db) ∧
    (ApiError.notFound ("User with ID " ++ toString uid ++ " not found.")).statusCode = 404 ∧
    (db.users.find? (fun v => v.user_id == uid) = some u →
        get_current_user (some uid) ⟨db, []⟩ = (.ok u, 1)) := by
  refine ⟨rfl, rfl, ?_, rfl, ?_⟩
  · intro h
    refine ⟨?_, ?_⟩
    · simp [get_current_user, h]
    · intro entry_data today llm persist
      simp [handle_analyze_entry, get_current_user, h]
  · intro h
    simp [get_current_user, h]

/-- Closed witness for `authenticator_spec`. -/
theorem authenticator_spec_witness :
    get_current_user (some 99) ⟨⟨[⟨7, "Alice", "alice@example.com"⟩], [], 1⟩, []⟩ =
      (.error (.notFound "User with ID 99 not found."), 1) :=
  ((authenticator_spec ⟨[⟨7, "Alice", "alice@example.com"⟩], [], 1⟩ 99
      ⟨7, "Alice", "alice@example.com"⟩).2.2.1 (by decide)).1

/-- C6: the row a successful call commits is the constructed row with its
fresh primary key, and the constructed row has entry_date = today, text =
the input text, sentiment_score = the parsed score, entry_status = the
request status, and ai_suggestion = the one-key blob
`{"counsel": <parsed counsel>}`. -/
theorem saved_row_fields (entry_data : EntryCreateRequest) (user : User) (today : Date)
    (a : SimplifiedAnalysis) (db : Database) (hne : entry_data.text ≠ "") :
    (analyze_and_save_entry entry_data user today (.ok a) (.ok ()) ⟨db, []⟩).2.1.db.entries =
      db.entries ++
        [{ builtEntry entry_data user today a with journal_entry_id := some db.nextEntryId }] ∧
    (builtEntry entry_data user today a).entry_date = today ∧
    (builtEntry entry_data user today a).text = some entry_data.text ∧
    (builtEntry entry_data user today a).sentiment_score = some a.sentimentScore ∧
    (builtEntry entry_data user today a).entry_status = some entry_data.entry_status ∧
    (builtEntry entry_data user today a).ai_suggestion = some [("counsel", a.counsel)] := by
  refine ⟨?_, rfl, rfl, rfl, rfl, rfl⟩
  simp [analyze_and_save_entry, sessionAdd, sessionCommit, assignIds, hne]

/-- Closed witness for `saved_row_fields`. -/
theorem saved_row_fields_witness :
    (builtEntry ⟨"hi there", .archived⟩ ⟨5, "Cara", "cara@example.com"⟩ ⟨2024, 7, 3⟩
        ⟨1, "go on"⟩).ai_suggestion = some [("counsel", "go on")] :=
  (saved_row_fields ⟨"hi there", .archived⟩ ⟨5, "Cara", "cara@example.com"⟩ ⟨2024, 7, 3⟩
      ⟨1, "go on"⟩ ⟨[], [], 1⟩ (by decide)).2.2.2.2.2

/-- C7: in the scenario where user id 7 exists and submits
"Today was a good day.", a successful call returns the analysis (HTTP 200)
— with sentimentScore in [-10, 10] and non-empty counsel when the model
obeyed its prompt — and commits one JournalEntry row with word_count = 5
and entry_status = published; the final conjunct shows the component does
not independently validate the score bound or counsel non-emptiness: any
parsed analysis whatsoever is returned unchanged. -/
theorem scenario_user7_good_day (db : Database) (u : User) (today : Date)
    (a : SimplifiedAnalysis)
    (hu : db.users.find? (fun v => v.user_id == 7) = some u)
    (hs : -10 ≤ a.sentimentScore ∧ a.sentimentScore ≤ 10)
    (hc : a.counsel ≠ "") :
    (handle_analyze_entry (some 7) ⟨"Today was a good day.", .published⟩ today
        (.ok a) (.ok ()) db).1 = .ok a ∧
    (-10 ≤ a.sentimentScore ∧ a.sentimentScore ≤ 10) ∧ a.counsel ≠ "" ∧
    (handle_analyze_entry (some 7) ⟨"Today was a good day.", .published⟩ today
        (.ok a) (.ok ()) db).2.1.entries =
      db.entries ++
        [{ builtEntry ⟨"Today was a good day.", .published⟩ u today a with
             journal_entry_id := some db.nextEntryId }] ∧
    (builtEntry ⟨"Today was a good day.", .published⟩ u today a).word_count = 5 ∧
    (builtEntry ⟨"Today was a good day.", .published⟩ u today a).entry_status =
        some .published ∧
    ∀ a' : SimplifiedAnalysis,
      (handle_analyze_entry (some 7) ⟨"Today was a good day.", .published⟩ today
          (.ok a') (.ok ()) db).1 = .ok a' := by
  refine ⟨?_, hs, hc, ?_, ?_, rfl, ?_⟩
  · simp [handle_analyze_entry, get_current_user, hu, analyze_and_save_entry]
  · simp [handle_analyze_entry, get_current_user, hu, analyze_and_save_entry,
      sessionAdd, sessionCommit, assignIds]
  · simp only [builtEntry]
    decide
  · intro a'
    simp [handle_analyze_entry, get_current_user, hu, analyze_and_save_entry]

/-- Closed witness for `scenario_user7_good_day`. -/
theorem scenario_user7_good_day_witness :
    (handle_analyze_entry (some 7) ⟨"Today was a good day.", .published⟩ ⟨2024, 5, 1⟩
        (.ok ⟨8, "Keep it up."⟩) (.ok ())
        ⟨[⟨7, "Alice", "alice@example.com"⟩], [], 1⟩).1 = .ok ⟨8, "Keep it up."⟩ :=
  (scenario_user7_good_day ⟨[⟨7, "Alice", "alice@example.com"⟩], [], 1⟩
      ⟨7, "Alice", "alice@example.com"⟩ ⟨2024, 5, 1⟩ ⟨8, "Keep it up."⟩
      (by decide) (by decide) (by decide)).1

/-- C10: the emptiness check accepts any non-empty string — for every
request with text ≠ "" no BadRequest is raised and the LLM is invoked
(exactly once) — and for the whitespace-only text " " a successful call
commits a row whose word_count is 0, since splitting whitespace-only text
yields no tokens. -/
theorem whitespace_only_text_accepted (user : User) (today : Date)
    (a : SimplifiedAnalysis) (db : Database) (st : EntryStatus) :
    (∀ (entry_data : EntryCreateRequest) (llm : Except String SimplifiedAnalysis)
       (persist : Except String Unit) (s : DBSession), entry_data.text ≠ "" →
         (∀ d : String, (analyze_and_save_entry entry_data user today llm persist s).1 ≠
             .error (.badRequest d)) ∧
         (analyze_and_save_entry entry_data user today llm persist s).2.2 = 1) ∧
    (analyze_and_save_entry ⟨" ", st⟩ user today (.ok a) (.ok ()) ⟨db, []⟩).1 = .ok a ∧
    (analyze_and_save_entry ⟨" ", st⟩ user today (.ok a) (.ok ()) ⟨db, []⟩).2.1.db.entries =
      db.entries ++
        [{ builtEntry ⟨" ", st⟩ user today a with journal_entry_id := some db.nextEntryId }] ∧
    (builtEntry ⟨" ", st⟩ user today a).word_count = 0 := by
  refine ⟨?_, ?_, ?_, ?_⟩
  · intro entry_data llm persist s hne
    cases llm with
    | error e =>
        refine ⟨?_, ?_⟩ <;> simp [analyze_and_save_entry, hne]
    | ok r =>
        cases persist with
        | error e => refine ⟨?_, ?_⟩ <;> simp [analyze_and_save_entry, hne]
        | ok v => refine ⟨?_, ?_⟩ <;> simp [analyze_and_save_entry, hne]
  · simp [analyze_and_save_entry]
  · simp [analyze_and_save_entry, sessionAdd, sessionCommit, assignIds]
  · simp only [builtEntry]
    decide

/-- Closed witness for `whitespace_only_text_accepted`. -/
theorem whitespace_only_text_accepted_witness :
    (analyze_and_save_entry ⟨"x", .published⟩ ⟨1, "Ann", "ann@example.com"⟩ ⟨2024, 1, 2⟩
        (.error "boom") (.ok ()) ⟨⟨[], [], 1⟩, []⟩).2.2 = 1 :=
  ((whitespace_only_text_accepted ⟨1, "Ann", "ann@example.com"⟩ ⟨2024, 1, 2⟩ ⟨0, "c"⟩
      ⟨[], [], 1⟩ .published).1 ⟨"x", .published⟩ (.error "boom") (.ok ())
      ⟨⟨[], [], 1⟩, []⟩ (by decide)).2
